import Mathlib

/-!
Shallow embedding of the document persistence and update-contract layer of the
student project portal backend (`main.py`, `schemas.py`).

Documents are modelled as association lists from string keys to BSON-like
values, mirroring the Python dicts returned by pymongo.  The store for one
collection is a list of documents in insertion order.  Endpoint handlers are
translated function-by-function from `main.py`; Python `try/except` blocks
become explicit `Except` plumbing, and Python truthiness tests (`if existing:`,
`if role:`, `if payload.fileUrl:`) are translated by explicit truthiness
functions.  The `db` handle is assumed present (the `if db else None` guards
take the `db` branch), matching the spec's treatment of the store connection as
an already-initialized external resource.
-/

/-- Python `datetime.datetime` restricted to the fields `isoformat` renders.
`tzMinutes` is the UTC offset in minutes for an aware datetime, `none` for a
naive one. -/
structure PyDateTime where
  year : Nat
  month : Nat
  day : Nat
  hour : Nat
  minute : Nat
  second : Nat
  microsecond : Nat
  tzMinutes : Option Int
deriving DecidableEq, Repr

/-- BSON-like values stored in documents.  Arrays in this data model only ever
hold strings (`deliverables` is a list of file URL strings), so the array case
carries `List String`. -/
inductive Value where
  | vStr (s : String)
  | vOid (s : String)
  | vDt (t : PyDateTime)
  | vBool (b : Bool)
  | vStrList (l : List String)
  | vNone
deriving DecidableEq, Repr

/-- A stored document: a Python dict as an insertion-ordered association list. -/
abbrev Doc := List (String × Value)

/-- `doc.get(k)` / `doc[k]`-style lookup: first binding of the key. -/
def dgetOpt (d : Doc) (k : String) : Option Value :=
  (d.find? (fun p => p.1 == k)).map (fun p => p.2)

/-- Python dict assignment `doc[k] = v`: replaces the value in place when the
key exists, otherwise appends the binding at the end. -/
def dset (d : Doc) (k : String) (v : Value) : Doc :=
  if d.any (fun p => p.1 == k) then d.map (fun p => if p.1 == k then (k, v) else p)
  else d ++ [(k, v)]

/-- Python `del doc[k]`. -/
def ddel (d : Doc) (k : String) : Doc := d.filter (fun p => !(p.1 == k))

/-- A digit character, as produced by `%d` formatting of `n % 10`. -/
def digitChar (n : Nat) : Char := Char.ofNat (48 + n % 10)

/-- `%02d` rendering (as a char list) of a number known to be below 100. -/
def pad2l (n : Nat) : List Char := [digitChar (n / 10), digitChar n]

/-- `%04d` rendering of a number known to be below 10000. -/
def pad4l (n : Nat) : List Char :=
  [digitChar (n / 1000), digitChar (n / 100), digitChar (n / 10), digitChar n]

/-- `%06d` rendering of a number known to be below 1000000. -/
def pad6l (n : Nat) : List Char :=
  [digitChar (n / 100000), digitChar (n / 10000), digitChar (n / 1000),
   digitChar (n / 100), digitChar (n / 10), digitChar n]

/-- The `±HH:MM` UTC-offset suffix `datetime.isoformat` appends for an aware
datetime whose offset is a whole number of minutes. -/
def offsetl (m : Int) : List Char :=
  (if m < 0 then '-' else '+') :: pad2l (m.natAbs / 60) ++ ':' :: pad2l (m.natAbs % 60)

/-- `datetime.isoformat()` as a char list: `YYYY-MM-DDTHH:MM:SS`, then
`.ffffff` when the microsecond field is nonzero, then the UTC offset when the
datetime is aware.  The `%0nd` paddings agree with Python on the value ranges
`datetime` itself enforces. -/
def PyDateTime.isoformatData (t : PyDateTime) : List Char :=
  pad4l t.year ++ '-' :: pad2l t.month ++ '-' :: pad2l t.day ++
  'T' :: pad2l t.hour ++ ':' :: pad2l t.minute ++ ':' :: pad2l t.second ++
  (if t.microsecond = 0 then [] else '.' :: pad6l t.microsecond) ++
  (match t.tzMinutes with
   | none => []
   | some m => offsetl m)

/-- `datetime.isoformat()`. -/
def PyDateTime.isoformat (t : PyDateTime) : String := String.mk t.isoformatData

/-- All characters are ASCII digits. -/
def isDigits (l : List Char) : Bool := l.all Char.isDigit

/-- Follows the spec's words: checks the tail of a canonical ISO-8601 UTC
timestamp after the seconds field — either the UTC designator `+00:00`
directly, or a 6-digit fractional-second field followed by `+00:00`. -/
def checkUTCTail : List Char → Bool
  | '+' :: '0' :: '0' :: ':' :: '0' :: '0' :: [] => true
  | '.' :: r =>
    match r with
    | f1 :: f2 :: f3 :: f4 :: f5 :: f6 :: '+' :: '0' :: '0' :: ':' :: '0' :: '0' :: [] =>
      isDigits [f1, f2, f3, f4, f5, f6]
    | _ => false
  | _ => false

/-- Follows the spec's words: a canonical ISO-8601 UTC textual timestamp,
`YYYY-MM-DDTHH:MM:SS[.ffffff]+00:00`. -/
def isISO8601UTCData : List Char → Bool
  | y1 :: y2 :: y3 :: y4 :: '-' :: m1 :: m2 :: '-' :: d1 :: d2 ::
    'T' :: h1 :: h2 :: ':' :: n1 :: n2 :: ':' :: s1 :: s2 :: rest =>
    isDigits [y1, y2, y3, y4, m1, m2, d1, d2, h1, h2, n1, n2, s1, s2] && checkUTCTail rest
  | _ => false

/-- Follows the spec's words: a canonical ISO-8601 UTC textual timestamp. -/
def isISO8601UTC (s : String) : Bool := isISO8601UTCData s.data

/-- `str(v)` for the values the endpoints apply `str` to (only the ObjectId
case is exercised by the code: `str(existing["_id"])`). -/
def pyStr : Value → String
  | .vStr s => s
  | .vOid s => s
  | .vBool b => if b then "True" else "False"
  | .vNone => "None"
  | .vDt t => t.isoformat
  | .vStrList _ => ""

/-- ASCII hexadecimal digit. -/
def isHexChar (c : Char) : Bool :=
  c.isDigit || (('a' ≤ c && c ≤ 'f') || ('A' ≤ c && c ≤ 'F'))

/-- Character-wise ASCII lowercasing (`str.lower()` on ASCII text). -/
def lowerStr (s : String) : String := String.mk (s.data.map Char.toLower)

/-- `bson.ObjectId(s)`: succeeds exactly on a 24-character hex string,
returning the id (normalized to the lowercase hex form `str(ObjectId(s))`
produces); raises `InvalidId` otherwise. -/
def objectId? (s : String) : Option String :=
  if (s.length == 24) && s.data.all isHexChar then some (lowerStr s) else none

/-- Python truthiness of a pymongo `find_one` result (`None` and the empty
dict are falsy). -/
def pyTruthy : Option Doc → Bool
  | none => false
  | some d => !d.isEmpty

/-- Equality filter matching, as used by `find_one` / `find` / `update_one`:
every listed field must be present with the given value. -/
def matchesFilter (d : Doc) (filt : List (String × Value)) : Bool :=
  filt.all (fun kv => decide (dgetOpt d kv.1 = some kv.2))

/-- pymongo `collection.find_one(filt)`: first document (in insertion order)
matching the filter. -/
def find_one (docs : List Doc) (filt : List (String × Value)) : Option Doc :=
  docs.find? (fun d => matchesFilter d filt)

/-- pymongo `collection.find(filt)` before sorting: all matching documents in
insertion order. -/
def findDocs (docs : List Doc) (filt : List (String × Value)) : List Doc :=
  docs.filter (fun d => matchesFilter d filt)

/-- Modifies the first document matching the filter, as pymongo `update_one`
does. -/
def modifyFirst (docs : List Doc) (filt : List (String × Value)) (f : Doc → Doc) : List Doc :=
  match docs with
  | [] => []
  | d :: rest => if matchesFilter d filt then f d :: rest else d :: modifyFirst rest filt f

/-- Applies a `$set` update document to one stored document. -/
def setFields (d : Doc) (upd : List (String × Value)) : Doc :=
  upd.foldl (fun acc kv => dset acc kv.1 kv.2) d

/-- The last binding of a key in an update document (the binding `setFields`
leaves in effect when a key occurs more than once). -/
def lookupLast : List (String × Value) → String → Option Value
  | [], _ => none
  | kv :: rest, k =>
    match lookupLast rest k with
    | some v => some v
    | none => if kv.1 = k then some kv.2 else none

/-- pymongo `update_one(filt, {"$set": upd})` on the collection. -/
def update_one (docs : List Doc) (filt : List (String × Value)) (upd : List (String × Value)) : List Doc :=
  modifyFirst docs filt (fun d => setFields d upd)

/-- `update_one`'s `matched_count`: 1 when some document matches, else 0. -/
def matched_count (docs : List Doc) (filt : List (String × Value)) : Nat :=
  if docs.any (fun d => matchesFilter d filt) then 1 else 0

/-- Mongo `$addToSet` on an array of strings: append the value unless already
present. -/
def addToSetList (l : List String) (v : String) : List String :=
  if l.contains v then l else l ++ [v]

/-- `$addToSet` applied to one document: the field must hold an array (every
array in this schema holds strings); a missing field is created as a
one-element array.  A non-array value makes the real store reject the write,
which leaves the document unchanged. -/
def docAddToSet (d : Doc) (k : String) (v : String) : Doc :=
  match dgetOpt d k with
  | some (Value.vStrList l) => dset d k (Value.vStrList (addToSetList l v))
  | some _ => d
  | none => dset d k (Value.vStrList [v])

/-- pymongo `update_one(filt, {"$addToSet": {k: v}})` on the collection. -/
def update_one_addToSet (docs : List Doc) (filt : List (String × Value)) (k : String) (v : String) : List Doc :=
  modifyFirst docs filt (fun d => docAddToSet d k v)

/-- Sort key modelling BSON date ordering of a `created_at` value; documents
without a date sort below all dated ones. -/
def PyDateTime.sortKey (t : PyDateTime) : Nat :=
  ((((((t.year * 13 + t.month) * 32 + t.day) * 25 + t.hour) * 61 + t.minute) * 61 +
    t.second) * 1000000 + t.microsecond) + 1

/-- Sort key of a document for `.sort("created_at", -1)`. -/
def createdKey (d : Doc) : Nat :=
  match dgetOpt d "created_at" with
  | some (Value.vDt t) => t.sortKey
  | _ => 0

/-- Stable insertion into a list already sorted by `created_at` descending:
the inserted document goes before the first one whose key is not larger,
preserving insertion order among ties. -/
def insertByKeyDesc (d : Doc) : List Doc → List Doc
  | [] => [d]
  | e :: rest =>
    if createdKey e ≤ createdKey d then d :: e :: rest else e :: insertByKeyDesc d rest

/-- `.sort("created_at", -1)`: newest first, ties in insertion order. -/
def sortCreatedDesc : List Doc → List Doc
  | [] => []
  | d :: rest => insertByKeyDesc d (sortCreatedDesc rest)

/-- The datetime-to-text pass of `to_str_id` applied to one value. -/
def convVal : Value → Value
  | Value.vDt t => Value.vStr t.isoformat
  | v => v

/-- The loop `for k, v in list(doc.items()): if isinstance(v, datetime): ...`
of `to_str_id`: converts every top-level datetime value to its isoformat
string. -/
def convertDts (d : Doc) : Doc := d.map (fun p => (p.1, convVal p.2))

/-- `to_str_id` on a document known not to be `None`: the falsy (empty dict)
early return, then the `_id`-to-`id` renaming when `_id` is an ObjectId, then
the datetime conversion loop. -/
def to_str_id_doc (d : Doc) : Doc :=
  if d.isEmpty then d
  else
    let d1 :=
      match dgetOpt d "_id" with
      | some (Value.vOid i) => ddel (dset d "id" (Value.vStr i)) "_id"
      | _ => d
    convertDts d1

/-- `to_str_id(doc)`: `None` (and any falsy input) is returned unchanged. -/
def to_str_id : Option Doc → Option Doc
  | none => none
  | some d => some (to_str_id_doc d)

/-- Exceptions raised (and HTTP errors returned) by the endpoint handlers:
`fastapi.HTTPException`, `bson.errors.InvalidId` from `ObjectId(...)`, and a
`pydantic.ValidationError` naming the offending field. -/
inductive PyExc where
  | http (status : Nat) (detail : String)
  | invalidId
  | validation (field : String)
deriving DecidableEq, Repr

/-- Result of a partial-update endpoint: the `{"updated": False}` short-circuit
response or the re-read projected document. -/
inductive UpdResp where
  | notUpdated
  | updatedDoc (d : Option Doc)
deriving DecidableEq, Repr

/-- The fixed `technology` literal set of the `Project` schema. -/
def technologies : List String := ["Python", "Java", "AI/ML", "IoT", "Web", "Android"]

/-- The fixed `status` literal set of the `Project` schema. -/
def statuses : List String := ["Requested", "In Review", "In Development", "Completed"]

/-- The fixed `paymentStatus` literal set of the `Project` schema. -/
def paymentStatuses : List String := ["pending", "verified"]

/-- The `Project` pydantic model of `schemas.py` (validated form). -/
structure Project where
  studentId : String
  title : String
  description : Option String
  technology : String
  status : String
  paymentStatus : String
  paymentProofURL : Option String
  adminRemarks : Option String
  deliverables : List String
deriving DecidableEq, Repr

/-- Constructing `Project(studentId=..., title=..., technology=...,
description=...)` as `create_project` does: pydantic validates `technology`
against the `Literal` set (a `ValidationError` names the field) and fills the
declared defaults for the remaining fields. -/
def mkProject (studentId title technology : String) (description : Option String) :
    Except PyExc Project :=
  if technologies.contains technology then
    Except.ok
      { studentId := studentId, title := title, description := description,
        technology := technology, status := "Requested", paymentStatus := "pending",
        paymentProofURL := none, adminRemarks := none, deliverables := [] }
  else Except.error (PyExc.validation "technology")

/-- An optional text field as stored (`None` becomes a BSON null). -/
def optStr : Option String → Value
  | none => Value.vNone
  | some s => Value.vStr s

/-- `Project.model_dump()` in the model's field order. -/
def Project.dump (p : Project) : Doc :=
  [("studentId", Value.vStr p.studentId), ("title", Value.vStr p.title),
   ("description", optStr p.description), ("technology", Value.vStr p.technology),
   ("status", Value.vStr p.status), ("paymentStatus", Value.vStr p.paymentStatus),
   ("paymentProofURL", optStr p.paymentProofURL), ("adminRemarks", optStr p.adminRemarks),
   ("deliverables", Value.vStrList p.deliverables)]

/-- `User(...).model_dump()` in the model's field order. -/
def userDump (name email role : String) : Doc :=
  [("name", Value.vStr name), ("email", Value.vStr email), ("role", Value.vStr role)]

/-- Modelled from the spec: `create_document` is defined in `database.py`,
which is not part of `src/`.  Per spec §3 and §4.3 it inserts the validated
entity into the collection, assigning a store-generated unique identifier and
a creation timestamp atomically with the insertion; the caller receives the
new id as a string.  The fresh id and the timestamp are passed in here, since
the store generates them. -/
def create_document (docs : List Doc) (entity : Doc) (newId : String) (now : PyDateTime) :
    List Doc :=
  docs ++ [("_id", Value.vOid newId) :: entity ++ [("created_at", Value.vDt now)]]

/-- `POST /api/register` (`register_user` in `main.py`): look up by email; if
a (truthy) document exists return its fields without writing, otherwise create
a `student` user with the supplied name. -/
def register_user (users : List Doc) (name email : String) (newId : String)
    (now : PyDateTime) : Doc × List Doc :=
  let existing := find_one users [("email", Value.vStr email)]
  if pyTruthy existing then
    let e := existing.getD []
    ([("id", Value.vStr (pyStr ((dgetOpt e "_id").getD Value.vNone))),
      ("name", (dgetOpt e "name").getD Value.vNone),
      ("email", (dgetOpt e "email").getD Value.vNone),
      ("role", (dgetOpt e "role").getD (Value.vStr "student"))], users)
  else
    let users' := create_document users (userDump name email "student") newId now
    ([("id", Value.vStr newId), ("name", Value.vStr name),
      ("email", Value.vStr email), ("role", Value.vStr "student")], users')

/-- `email.split("@")[0]`: the text before the first `@` (the whole string
when there is none). -/
def localPartAux : List Char → List Char
  | [] => []
  | c :: rest => if c = '@' then [] else c :: localPartAux rest

/-- `email.split("@")[0]`. -/
def localPart (s : String) : String := String.mk (localPartAux s.data)

/-- Python `str.title()` on ASCII text: an alphabetic character is uppercased
when the previous character is not alphabetic (or at the start) and lowercased
otherwise; non-alphabetic characters pass through and reset the boundary. -/
def pyTitleAux : Bool → List Char → List Char
  | _, [] => []
  | prevCased, c :: rest =>
    if c.isAlpha then
      (if prevCased then c.toLower else c.toUpper) :: pyTitleAux true rest
    else c :: pyTitleAux false rest

/-- Python `str.title()` (ASCII). -/
def pyTitle (s : String) : String := String.mk (pyTitleAux false s.data)

/-- Follows the spec's words (for comparison with `pyTitle`): capitalize the
first letter of each whitespace-separated token, leaving other characters
unchanged. -/
def specTitleAux : Bool → List Char → List Char
  | _, [] => []
  | afterWs, c :: rest =>
    if c.isWhitespace then c :: specTitleAux true rest
    else (if afterWs then c.toUpper else c) :: specTitleAux false rest

/-- Follows the spec's words: whitespace-token title-casing. -/
def specWhitespaceTitle (s : String) : String := String.mk (specTitleAux true s.data)

/-- `POST /api/login` (`login_user` in `main.py`): look up by email; when not
found, auto-register a `student` whose name is `email.split("@")[0].title()`. -/
def login_user (users : List Doc) (email : String) (newId : String)
    (now : PyDateTime) : Doc × List Doc :=
  let user := find_one users [("email", Value.vStr email)]
  if !(pyTruthy user) then
    let nm := pyTitle (localPart email)
    let users' := create_document users (userDump nm email "student") newId now
    ([("id", Value.vStr newId), ("name", Value.vStr nm),
      ("email", Value.vStr email), ("role", Value.vStr "student")], users')
  else
    let u := user.getD []
    ([("id", Value.vStr (pyStr ((dgetOpt u "_id").getD Value.vNone))),
      ("name", (dgetOpt u "name").getD Value.vNone),
      ("email", (dgetOpt u "email").getD Value.vNone),
      ("role", (dgetOpt u "role").getD (Value.vStr "student"))], users)

/-- `GET /api/user/{user_id}` (`get_user` in `main.py`).  The whole handler
body sits in a `try` block whose `except Exception` re-raises a 400 — so both
the `bson.InvalidId` from `ObjectId(user_id)` and the handler's own 404
`HTTPException` are converted into the 400 response. -/
def get_user (users : List Doc) (user_id : String) : Except PyExc (Option Doc) :=
  let body : Except PyExc (Option Doc) :=
    match objectId? user_id with
    | none => Except.error PyExc.invalidId
    | some oid =>
      let doc := find_one users [("_id", Value.vOid oid)]
      if pyTruthy doc then Except.ok (to_str_id doc)
      else Except.error (PyExc.http 404 "User not found")
  match body with
  | Except.ok r => Except.ok r
  | Except.error _ => Except.error (PyExc.http 400 "Invalid user id")

/-- `GET /api/users` (`list_users` in `main.py`): `filt = {"role": role} if
role else {}` — `None` and the empty string are both falsy. -/
def list_users (users : List Doc) (role : Option String) : List Doc :=
  let filt : List (String × Value) :=
    match role with
    | some r => if r = "" then [] else [("role", Value.vStr r)]
    | none => []
  (sortCreatedDesc (findDocs users filt)).map to_str_id_doc

/-- The `ProjectCreate` request model of `main.py`. -/
structure ProjectCreate where
  studentId : String
  title : String
  technology : String
  description : Option String
  fileUrl : Option String
deriving DecidableEq, Repr

/-- `POST /api/projects` (`create_project` in `main.py`): validate through the
`Project` model, insert, `$addToSet` the initial file reference when the
(truthy) `fileUrl` is supplied, then re-read and project the stored document. -/
def create_project (projects : List Doc) (payload : ProjectCreate) (newId : String)
    (now : PyDateTime) : Except PyExc (Option Doc) × List Doc :=
  match mkProject payload.studentId payload.title payload.technology payload.description with
  | Except.error e => (Except.error e, projects)
  | Except.ok proj =>
    let projects1 := create_document projects proj.dump newId now
    let projects2 :=
      match payload.fileUrl with
      | some url =>
        if url = "" then projects1
        else update_one_addToSet projects1 [("_id", Value.vOid newId)] "deliverables" url
      | none => projects1
    (Except.ok (to_str_id (find_one projects2 [("_id", Value.vOid newId)])), projects2)

/-- `GET /api/projects` (`list_projects` in `main.py`). -/
def list_projects (projects : List Doc) (studentId : Option String) : List Doc :=
  let filt : List (String × Value) :=
    match studentId with
    | some s => if s = "" then [] else [("studentId", Value.vStr s)]
    | none => []
  (sortCreatedDesc (findDocs projects filt)).map to_str_id_doc

/-- The `ProjectUpdate` request model of `main.py`: all four mutable fields
are plain optional values — no `Literal` constraint on `status` or
`paymentStatus`. -/
structure ProjectUpdate where
  status : Option String
  paymentStatus : Option String
  adminRemarks : Option String
  deliverables : Option (List String)
deriving DecidableEq, Repr

/-- `payload.model_dump(exclude_none=True)` for `ProjectUpdate`, in field
order. -/
def ProjectUpdate.dump (p : ProjectUpdate) : List (String × Value) :=
  (match p.status with
   | some s => [("status", Value.vStr s)]
   | none => []) ++
  (match p.paymentStatus with
   | some s => [("paymentStatus", Value.vStr s)]
   | none => []) ++
  (match p.adminRemarks with
   | some s => [("adminRemarks", Value.vStr s)]
   | none => []) ++
  (match p.deliverables with
   | some l => [("deliverables", Value.vStrList l)]
   | none => [])

/-- `PATCH /api/projects/{project_id}` (`update_project` in `main.py`).  The
empty-update short-circuit returns before any store access; the rest sits in
a `try` block whose `except Exception` converts both the `bson.InvalidId` and
the handler's own 404 `HTTPException` into the 400 response. -/
def update_project (projects : List Doc) (project_id : String) (payload : ProjectUpdate)
    (now : PyDateTime) : Except PyExc UpdResp × List Doc :=
  let upd0 := payload.dump
  if upd0.isEmpty then (Except.ok UpdResp.notUpdated, projects)
  else
    match objectId? project_id with
    | none => (Except.error (PyExc.http 400 "Invalid project id"), projects)
    | some oid =>
      let upd := upd0 ++ [("updated_at", Value.vDt now)]
      let projects' := update_one projects [("_id", Value.vOid oid)] upd
      if matched_count projects [("_id", Value.vOid oid)] == 0 then
        (Except.error (PyExc.http 400 "Invalid project id"), projects')
      else
        (Except.ok (UpdResp.updatedDoc (to_str_id (find_one projects' [("_id", Value.vOid oid)]))),
         projects')

/-- `GET /api/payments` (`list_payments` in `main.py`). -/
def list_payments (payments : List Doc) (studentId : Option String) : List Doc :=
  let filt : List (String × Value) :=
    match studentId with
    | some s => if s = "" then [] else [("studentId", Value.vStr s)]
    | none => []
  (sortCreatedDesc (findDocs payments filt)).map to_str_id_doc

/-- The `PaymentUpdate` request model of `main.py`. -/
structure PaymentUpdate where
  verified : Option Bool
  verifiedBy : Option String
  verifiedDate : Option PyDateTime
deriving DecidableEq, Repr

/-- `payload.model_dump(exclude_none=True)` for `PaymentUpdate`, in field
order. -/
def PaymentUpdate.dump (p : PaymentUpdate) : List (String × Value) :=
  (match p.verified with
   | some b => [("verified", Value.vBool b)]
   | none => []) ++
  (match p.verifiedBy with
   | some s => [("verifiedBy", Value.vStr s)]
   | none => []) ++
  (match p.verifiedDate with
   | some t => [("verifiedDate", Value.vDt t)]
   | none => [])

/-- `PATCH /api/payments/{payment_id}` (`update_payment` in `main.py`); same
structure as `update_project`, including the `except Exception` that turns the
404 into the 400 response. -/
def update_payment (payments : List Doc) (payment_id : String) (payload : PaymentUpdate)
    (now : PyDateTime) : Except PyExc UpdResp × List Doc :=
  let upd0 := payload.dump
  if upd0.isEmpty then (Except.ok UpdResp.notUpdated, payments)
  else
    match objectId? payment_id with
    | none => (Except.error (PyExc.http 400 "Invalid payment id"), payments)
    | some oid =>
      let upd := upd0 ++ [("updated_at", Value.vDt now)]
      let payments' := update_one payments [("_id", Value.vOid oid)] upd
      if matched_count payments [("_id", Value.vOid oid)] == 0 then
        (Except.error (PyExc.http 400 "Invalid payment id"), payments')
      else
        (Except.ok (UpdResp.updatedDoc (to_str_id (find_one payments' [("_id", Value.vOid oid)]))),
         payments')

/-- Every top-level datetime value of the document is UTC-aware (offset 0) —
true of every timestamp the handlers themselves store
(`datetime.now(timezone.utc)`). -/
def allDtsUTC (d : Doc) : Bool :=
  d.all (fun p =>
    match p.2 with
    | Value.vDt t => decide (t.tzMinutes = some 0)
    | _ => true)

/-- A fixed sample UTC timestamp used by concrete evaluations. -/
def sampleTime : PyDateTime :=
  { year := 2024, month := 1, day := 2, hour := 3, minute := 4, second := 5,
    microsecond := 0, tzMinutes := some 0 }

/-- A second, later sample UTC timestamp. -/
def sampleTime2 : PyDateTime :=
  { year := 2024, month := 2, day := 3, hour := 4, minute := 5, second := 6,
    microsecond := 0, tzMinutes := some 0 }

/-- A well-formed 24-hex-character ObjectId string. -/
def sampleOid : String := "aabbccddeeff001122334455"

/-- A second well-formed ObjectId string. -/
def sampleOid2 : String := "ffeeddccbbaa998877665544"

/-- A concrete stored project document used in concrete evaluations. -/
def c2doc : Doc :=
  [("_id", Value.vOid sampleOid), ("studentId", Value.vStr "s1"),
   ("title", Value.vStr "T"), ("technology", Value.vStr "Java"),
   ("status", Value.vStr "Requested"), ("paymentStatus", Value.vStr "pending"),
   ("created_at", Value.vDt sampleTime)]

/-- `c2doc` after the `{"$set": {"status": "Bogus", "updated_at": ...}}` write. -/
def c2docAfter : Doc :=
  [("_id", Value.vOid sampleOid), ("studentId", Value.vStr "s1"),
   ("title", Value.vStr "T"), ("technology", Value.vStr "Java"),
   ("status", Value.vStr "Bogus"), ("paymentStatus", Value.vStr "pending"),
   ("created_at", Value.vDt sampleTime), ("updated_at", Value.vDt sampleTime2)]

/-- A concrete stored user document used in concrete evaluations. -/
def c5doc : Doc :=
  [("_id", Value.vOid sampleOid), ("name", Value.vStr "Alice"),
   ("email", Value.vStr "a@x.com"), ("role", Value.vStr "student"),
   ("created_at", Value.vDt sampleTime)]

/-- A concrete stored project document with one deliverable already attached. -/
def c7doc : Doc :=
  [("_id", Value.vOid sampleOid), ("deliverables", Value.vStrList ["a.pdf"]),
   ("created_at", Value.vDt sampleTime)]

/-- A concrete stored document with an ObjectId and a creation timestamp. -/
def c9doc : Doc :=
  [("_id", Value.vOid sampleOid), ("created_at", Value.vDt sampleTime)]

/-! ### Association-list lemmas -/

lemma dgetOpt_cons (p : String × Value) (rest : Doc) (k : String) :
    dgetOpt (p :: rest) k = if p.1 = k then some p.2 else dgetOpt rest k := by
  by_cases h : p.1 = k
  · simp [dgetOpt, List.find?_cons, h]
  · simp [dgetOpt, List.find?_cons, h]

lemma dset_nil (k : String) (v : Value) : dset [] k v = [(k, v)] := by
  simp [dset]

lemma dset_cons (p : String × Value) (rest : Doc) (k : String) (v : Value) :
    dset (p :: rest) k v =
      if p.1 = k then (k, v) :: rest.map (fun q => if q.1 == k then (k, v) else q)
      else p :: dset rest k v := by
  by_cases h : p.1 = k
  · rw [if_pos h]
    unfold dset
    rw [if_pos (by simp [List.any_cons, h])]
    simp [h]
  · rw [if_neg h]
    unfold dset
    have hcons : (p :: rest).any (fun q => q.1 == k) = rest.any (fun q => q.1 == k) := by
      simp [List.any_cons, h]
    rw [hcons]
    by_cases ha : rest.any (fun q => q.1 == k) = true
    · rw [if_pos ha, if_pos ha]
      simp [h]
    · rw [if_neg ha, if_neg ha]
      simp

lemma dgetOpt_mapset_ne (rest : Doc) {k k' : String} (v : Value) (h : k' ≠ k) :
    dgetOpt (rest.map (fun q => if q.1 == k then (k, v) else q)) k' = dgetOpt rest k' := by
  induction rest with
  | nil => rfl
  | cons q tl ih =>
    by_cases hq : q.1 = k
    · rw [List.map_cons, if_pos (by simp [hq]), dgetOpt_cons, dgetOpt_cons]
      rw [if_neg (show ¬((k, v).1 = k') by simpa using Ne.symm h),
          if_neg (show ¬(q.1 = k') by rw [hq]; exact Ne.symm h)]
      exact ih
    · rw [List.map_cons, if_neg (by simp [hq]), dgetOpt_cons, dgetOpt_cons]
      by_cases hq' : q.1 = k'
      · rw [if_pos hq', if_pos hq']
      · rw [if_neg hq', if_neg hq']
        exact ih

lemma dgetOpt_dset_self (d : Doc) (k : String) (v : Value) :
    dgetOpt (dset d k v) k = some v := by
  induction d with
  | nil => rw [dset_nil, dgetOpt_cons]; simp
  | cons p rest ih =>
    rw [dset_cons]
    by_cases hp : p.1 = k
    · rw [if_pos hp, dgetOpt_cons]; simp
    · rw [if_neg hp, dgetOpt_cons, if_neg hp]
      exact ih

lemma dgetOpt_dset_ne (d : Doc) {k k' : String} (v : Value) (h : k' ≠ k) :
    dgetOpt (dset d k v) k' = dgetOpt d k' := by
  induction d with
  | nil =>
    rw [dset_nil, dgetOpt_cons, if_neg (show ¬((k, v).1 = k') by simpa using Ne.symm h)]
  | cons p rest ih =>
    rw [dset_cons]
    by_cases hp : p.1 = k
    · rw [if_pos hp, dgetOpt_cons,
          if_neg (show ¬((k, v).1 = k') by simpa using Ne.symm h), dgetOpt_cons,
          if_neg (show ¬(p.1 = k') by rw [hp]; exact Ne.symm h)]
      exact dgetOpt_mapset_ne rest v h
    · rw [if_neg hp, dgetOpt_cons, dgetOpt_cons]
      by_cases hp' : p.1 = k'
      · rw [if_pos hp', if_pos hp']
      · rw [if_neg hp', if_neg hp']
        exact ih

lemma ddel_cons (p : String × Value) (rest : Doc) (k : String) :
    ddel (p :: rest) k = if p.1 = k then ddel rest k else p :: ddel rest k := by
  by_cases h : p.1 = k
  · simp [ddel, List.filter_cons, h]
  · simp [ddel, List.filter_cons, h]

lemma dgetOpt_ddel_self (d : Doc) (k : String) : dgetOpt (ddel d k) k = none := by
  induction d with
  | nil => rfl
  | cons p rest ih =>
    rw [ddel_cons]
    by_cases hp : p.1 = k
    · rw [if_pos hp]; exact ih
    · rw [if_neg hp, dgetOpt_cons, if_neg hp]; exact ih

lemma dgetOpt_ddel_ne (d : Doc) {k k' : String} (h : k' ≠ k) :
    dgetOpt (ddel d k) k' = dgetOpt d k' := by
  induction d with
  | nil => rfl
  | cons p rest ih =>
    rw [ddel_cons]
    by_cases hp : p.1 = k
    · rw [if_pos hp, dgetOpt_cons,
          if_neg (show ¬(p.1 = k') by rw [hp]; exact Ne.symm h)]
      exact ih
    · rw [if_neg hp, dgetOpt_cons, dgetOpt_cons]
      by_cases hp' : p.1 = k'
      · rw [if_pos hp', if_pos hp']
      · rw [if_neg hp', if_neg hp']
        exact ih

lemma dgetOpt_convertDts (d : Doc) (k : String) :
    dgetOpt (convertDts d) k = (dgetOpt d k).map convVal := by
  induction d with
  | nil => rfl
  | cons p rest ih =>
    rw [convertDts, List.map_cons, dgetOpt_cons, dgetOpt_cons]
    by_cases hp : p.1 = k
    · rw [if_pos hp, if_pos hp]
      rfl
    · rw [if_neg hp, if_neg hp]
      exact ih

lemma dgetOpt_setFields_notin :
    ∀ (upd : List (String × Value)) (d : Doc) (k : String),
      (∀ kv ∈ upd, kv.1 ≠ k) → dgetOpt (setFields d upd) k = dgetOpt d k
  | [], _, _, _ => rfl
  | kv :: rest, d, k, h => by
    have h1 : kv.1 ≠ k := h kv (List.mem_cons_self _ _)
    have h2 : ∀ kv' ∈ rest, kv'.1 ≠ k := fun kv' hm => h kv' (List.mem_cons_of_mem _ hm)
    show dgetOpt (setFields (dset d kv.1 kv.2) rest) k = dgetOpt d k
    rw [dgetOpt_setFields_notin rest _ k h2, dgetOpt_dset_ne _ _ (Ne.symm h1)]

lemma dgetOpt_setFields_cons_self (d : Doc) (k : String) (v : Value)
    (rest : List (String × Value)) (h : ∀ kv ∈ rest, kv.1 ≠ k) :
    dgetOpt (setFields d ((k, v) :: rest)) k = some v := by
  show dgetOpt (setFields (dset d k v) rest) k = some v
  rw [dgetOpt_setFields_notin rest _ k h, dgetOpt_dset_self]

lemma dgetOpt_setFields :
    ∀ (upd : List (String × Value)) (d : Doc) (k : String),
      dgetOpt (setFields d upd) k =
        match lookupLast upd k with
        | some v => some v
        | none => dgetOpt d k
  | [], _, _ => rfl
  | kv :: rest, d, k => by
    show dgetOpt (setFields (dset d kv.1 kv.2) rest) k = _
    rw [dgetOpt_setFields rest (dset d kv.1 kv.2) k]
    have hcons : lookupLast (kv :: rest) k =
        match lookupLast rest k with
        | some v => some v
        | none => if kv.1 = k then some kv.2 else none := rfl
    rw [hcons]
    cases hl : lookupLast rest k with
    | some v => rfl
    | none =>
      by_cases hk : kv.1 = k
      · rw [if_pos hk, hk, dgetOpt_dset_self]
      · rw [if_neg hk, dgetOpt_dset_ne _ _ (fun hh => hk hh.symm)]

lemma dgetOpt_append_right (l1 l2 : Doc) (k : String)
    (h : dgetOpt l1 k = none) : dgetOpt (l1 ++ l2) k = dgetOpt l2 k := by
  induction l1 with
  | nil => rfl
  | cons p rest ih =>
    rw [List.cons_append, dgetOpt_cons]
    rw [dgetOpt_cons] at h
    by_cases hp : p.1 = k
    · rw [if_pos hp] at h; exact absurd h (by simp)
    · rw [if_neg hp] at h
      rw [if_neg hp]
      exact ih h

/-! ### Store-operation lemmas -/

lemma matchesFilter_single {d : Doc} {k : String} {v : Value} :
    matchesFilter d [(k, v)] = true ↔ dgetOpt d k = some v := by
  simp [matchesFilter]

lemma find_one_nil (filt : List (String × Value)) : find_one [] filt = none := rfl

lemma find_one_cons (e : Doc) (rest : List Doc) (filt : List (String × Value)) :
    find_one (e :: rest) filt =
      if matchesFilter e filt then some e else find_one rest filt := by
  show List.find? _ _ = _
  rw [List.find?_cons]
  cases matchesFilter e filt <;> rfl

lemma find_one_matches {docs : List Doc} {filt : List (String × Value)} {d : Doc}
    (h : find_one docs filt = some d) : matchesFilter d filt = true := by
  induction docs with
  | nil => exact absurd h (by simp [find_one_nil])
  | cons e rest ih =>
    rw [find_one_cons] at h
    by_cases he : matchesFilter e filt = true
    · rw [if_pos he] at h
      cases h
      exact he
    · rw [if_neg he] at h
      exact ih h

lemma find_one_mem {docs : List Doc} {filt : List (String × Value)} {d : Doc}
    (h : find_one docs filt = some d) : d ∈ docs := by
  induction docs with
  | nil => exact absurd h (by simp [find_one_nil])
  | cons e rest ih =>
    rw [find_one_cons] at h
    by_cases he : matchesFilter e filt = true
    · rw [if_pos he] at h
      cases h
      exact List.mem_cons_self _ _
    · rw [if_neg he] at h
      exact List.mem_cons_of_mem _ (ih h)

lemma matched_count_one {docs : List Doc} {filt : List (String × Value)} {d : Doc}
    (h : find_one docs filt = some d) : matched_count docs filt = 1 := by
  unfold matched_count
  rw [if_pos]
  exact List.any_eq_true.mpr ⟨d, find_one_mem h, find_one_matches h⟩

lemma modifyFirst_cons (e : Doc) (rest : List Doc) (filt : List (String × Value))
    (f : Doc → Doc) :
    modifyFirst (e :: rest) filt f =
      if matchesFilter e filt then f e :: rest else e :: modifyFirst rest filt f := rfl

lemma find_one_modifyFirst {filt : List (String × Value)} {f : Doc → Doc} :
    ∀ {docs : List Doc} {d : Doc}, find_one docs filt = some d →
      matchesFilter (f d) filt = true →
      find_one (modifyFirst docs filt f) filt = some (f d) := by
  intro docs
  induction docs with
  | nil => intro d h _; exact absurd h (by simp [find_one_nil])
  | cons e rest ih =>
    intro d h hf
    by_cases he : matchesFilter e filt = true
    · rw [find_one_cons, if_pos he] at h
      cases h
      rw [modifyFirst_cons, if_pos he, find_one_cons, if_pos hf]
    · rw [find_one_cons, if_neg he] at h
      rw [modifyFirst_cons, if_neg he, find_one_cons, if_neg he]
      exact ih h hf

lemma find_one_append_right {l1 : List Doc} (l2 : List Doc)
    {filt : List (String × Value)} (h : find_one l1 filt = none) :
    find_one (l1 ++ l2) filt = find_one l2 filt := by
  induction l1 with
  | nil => rfl
  | cons e rest ih =>
    rw [find_one_cons] at h
    rw [List.cons_append, find_one_cons]
    by_cases he : matchesFilter e filt = true
    · rw [if_pos he] at h; exact absurd h (by simp)
    · rw [if_neg he] at h
      rw [if_neg he]
      exact ih h

lemma modifyFirst_append_last (filt : List (String × Value)) (f : Doc → Doc) (x : Doc)
    (l : List Doc) :
    modifyFirst (l ++ [x]) filt f = modifyFirst l filt f ++ [x] ∨
    modifyFirst (l ++ [x]) filt f = l ++ [f x] := by
  induction l with
  | nil =>
    by_cases h : matchesFilter x filt = true
    · right
      rw [List.nil_append, show modifyFirst [x] filt f = [f x] by
        rw [modifyFirst_cons, if_pos h]]
      rfl
    · left
      rw [List.nil_append, show modifyFirst [x] filt f = [x] by
        rw [modifyFirst_cons, if_neg h]; rfl]
      rfl
  | cons e rest ih =>
    by_cases h : matchesFilter e filt = true
    · left
      rw [List.cons_append, modifyFirst_cons, if_pos h, modifyFirst_cons, if_pos h,
        List.cons_append]
    · rcases ih with h1 | h1
      · left
        rw [List.cons_append, modifyFirst_cons, if_neg h, h1, modifyFirst_cons, if_neg h,
          List.cons_append]
      · right
        rw [List.cons_append, modifyFirst_cons, if_neg h, h1, List.cons_append]

lemma dgetOpt_docAddToSet_ne (d : Doc) {k k' : String} (v : String) (h : k' ≠ k) :
    dgetOpt (docAddToSet d k v) k' = dgetOpt d k' := by
  unfold docAddToSet
  cases hg : dgetOpt d k with
  | none => exact dgetOpt_dset_ne _ _ h
  | some w =>
    cases w with
    | vStrList l => exact dgetOpt_dset_ne _ _ h
    | vStr s => rfl
    | vOid s => rfl
    | vDt t => rfl
    | vBool b => rfl
    | vNone => rfl

/-! ### ISO-8601 rendering lemmas -/

lemma digitChar_isDigit (n : Nat) : (digitChar n).isDigit = true := by
  unfold digitChar
  have h : n % 10 < 10 := Nat.mod_lt _ (by norm_num)
  revert h
  generalize n % 10 = m
  intro h
  interval_cases m <;> decide

lemma digitChar_zero : digitChar 0 = '0' := by decide

lemma isISO8601UTC_isoformat (t : PyDateTime) (h : t.tzMinutes = some 0) :
    isISO8601UTC t.isoformat = true := by
  obtain ⟨y, mo, dy, hh, mi, sec, us, tz⟩ := t
  simp only at h
  subst h
  show isISO8601UTCData (PyDateTime.isoformatData _) = true
  simp only [PyDateTime.isoformatData, pad4l, pad2l, offsetl]
  norm_num [Int.natAbs_zero, digitChar_zero]
  by_cases hus : us = 0
  · simp only [hus, if_pos rfl, List.nil_append, List.cons_append, List.append_assoc,
      List.nil_append]
    simp [isISO8601UTCData, checkUTCTail, isDigits, digitChar_isDigit]
  · simp only [if_neg hus, pad6l, List.cons_append, List.append_assoc, List.nil_append]
    simp [isISO8601UTCData, checkUTCTail, isDigits, digitChar_isDigit]

/-! ### Endpoint-level helper lemmas -/

lemma dgetOpt_eq_some_mem {d : Doc} {k : String} {v : Value} (h : dgetOpt d k = some v) :
    ∃ p, p ∈ d ∧ p.2 = v := by
  unfold dgetOpt at h
  rcases Option.map_eq_some'.mp h with ⟨p, hp, hv⟩
  exact ⟨p, List.mem_of_find?_eq_some hp, hv⟩

lemma register_user_not_found {users : List Doc} {n e newId : String} {now : PyDateTime}
    (h : find_one users [("email", Value.vStr e)] = none) :
    register_user users n e newId now =
      ([("id", Value.vStr newId), ("name", Value.vStr n), ("email", Value.vStr e),
        ("role", Value.vStr "student")],
       users ++ [("_id", Value.vOid newId) :: userDump n e "student" ++
         [("created_at", Value.vDt now)]]) := by
  simp [register_user, h, pyTruthy, create_document]

lemma register_user_found {users : List Doc} {n e newId : String} {now : PyDateTime}
    {d : Doc} (h : find_one users [("email", Value.vStr e)] = some d) (hne : d ≠ []) :
    register_user users n e newId now =
      ([("id", Value.vStr (pyStr ((dgetOpt d "_id").getD Value.vNone))),
        ("name", (dgetOpt d "name").getD Value.vNone),
        ("email", (dgetOpt d "email").getD Value.vNone),
        ("role", (dgetOpt d "role").getD (Value.vStr "student"))], users) := by
  have hemp : d.isEmpty = false := by
    cases d with
    | nil => exact absurd rfl hne
    | cons a l => rfl
  simp [register_user, h, pyTruthy, hemp]

/-! ### Claim theorems -/

/-- C1: the spec requires `NotFound` (for a well-formed id matching no
document) to be distinct from `InvalidIdentifier` (for a malformed id), but in
`get_user`, `update_project` and `update_payment` the 404 `HTTPException` is
raised inside the `try` block and caught by `except Exception`, which re-raises
the 400 "Invalid ... id" response: a well-formed-but-absent id produces exactly
the malformed-identifier error.  Evaluations at the failing inputs: a valid
24-hex ObjectId string on an empty store yields the same 400 error as a
malformed string. -/
theorem C1_wellformed_absent_id_yields_invalid_id_error :
    get_user [] "aaaaaaaaaaaaaaaaaaaaaaaa" = Except.error (PyExc.http 400 "Invalid user id") ∧
    get_user [] "not-an-objectid" = Except.error (PyExc.http 400 "Invalid user id") ∧
    (objectId? "aaaaaaaaaaaaaaaaaaaaaaaa").isSome = true ∧
    (objectId? "not-an-objectid").isSome = false ∧
    (update_project [] "aaaaaaaaaaaaaaaaaaaaaaaa" ⟨some "Completed", none, none, none⟩
        sampleTime).1 = Except.error (PyExc.http 400 "Invalid project id") ∧
    (update_payment [] "aaaaaaaaaaaaaaaaaaaaaaaa" ⟨some true, none, none⟩
        sampleTime).1 = Except.error (PyExc.http 400 "Invalid payment id") :=
  ⟨rfl, rfl, rfl, rfl, rfl, rfl⟩

/-- C3: creating a Project with technology `"COBOL"` (outside the fixed enum
set) fails with the validation error naming the `technology` field and writes
nothing, while creating one with `"Java"` succeeds and stores the document. -/
theorem C3_technology_enum_validation :
    (∀ (projects : List Doc) (sid title : String) (desc fileUrl : Option String)
       (newId : String) (now : PyDateTime),
       create_project projects ⟨sid, title, "COBOL", desc, fileUrl⟩ newId now =
         (Except.error (PyExc.validation "technology"), projects)) ∧
    (∃ d, (create_project [] ⟨"s1", "T", "Java", none, none⟩ sampleOid sampleTime).2 = [d] ∧
       dgetOpt d "technology" = some (Value.vStr "Java") ∧
       (create_project [] ⟨"s1", "T", "Java", none, none⟩ sampleOid sampleTime).1 =
         Except.ok (to_str_id (some d))) := by
  constructor
  · intro projects sid title desc fileUrl newId now
    rfl
  · exact ⟨_, rfl, rfl, rfl⟩

/-- C6: a partial update whose supplied field set is empty
(`model_dump(exclude_none=True)` yields nothing) short-circuits with the
"no changes applied" response and returns the store unchanged — no write, no
timestamp bump — for both Project and Payment updates. -/
theorem C6_empty_update_is_noop :
    (∀ (projects : List Doc) (pid : String) (p : ProjectUpdate) (now : PyDateTime),
       ProjectUpdate.dump p = [] →
       update_project projects pid p now = (Except.ok UpdResp.notUpdated, projects)) ∧
    (∀ (payments : List Doc) (pid : String) (q : PaymentUpdate) (now : PyDateTime),
       PaymentUpdate.dump q = [] →
       update_payment payments pid q now = (Except.ok UpdResp.notUpdated, payments)) := by
  constructor
  · intro projects pid p now h
    simp [update_project, h]
  · intro payments pid q now h
    simp [update_payment, h]

/-- Witness for C6 at a concrete empty payload and store. -/
theorem C6_empty_update_is_noop_witness :
    update_project [] "abc" ⟨none, none, none, none⟩ sampleTime =
      (Except.ok UpdResp.notUpdated, []) ∧
    update_payment [] "abc" ⟨none, none, none⟩ sampleTime =
      (Except.ok UpdResp.notUpdated, []) :=
  ⟨C6_empty_update_is_noop.1 [] "abc" ⟨none, none, none, none⟩ sampleTime rfl,
   C6_empty_update_is_noop.2 [] "abc" ⟨none, none, none⟩ sampleTime rfl⟩

/-- C10: supplying an empty-string filter value to the list endpoints behaves
identically to supplying no filter (Python truthiness makes `""` falsy), for
users (`role`), projects (`studentId`) and payments (`studentId`). -/
theorem C10_empty_string_filter_lists_all :
    ∀ (users projects payments : List Doc),
      list_users users (some "") = list_users users none ∧
      list_projects projects (some "") = list_projects projects none ∧
      list_payments payments (some "") = list_payments payments none := by
  intro users projects payments
  exact ⟨rfl, rfl, rfl⟩

/-- Counterexample to C4 as stated: the name derivation is Python
`str.title()`, which capitalizes after every non-alphabetic character, not
only after whitespace.  For the never-seen email `"john.doe@x.com"` the code
stores the name `"John.Doe"`, while capitalizing the first letter of each
whitespace-separated token of the local-part yields `"John.doe"`. -/
theorem C4_title_casing_counterexample :
    dgetOpt (login_user [] "john.doe@x.com" sampleOid sampleTime).1 "name" =
      some (Value.vStr "John.Doe") ∧
    pyTitle (localPart "john.doe@x.com") = "John.Doe" ∧
    specWhitespaceTitle (localPart "john.doe@x.com") = "John.doe" ∧
    ("John.Doe" : String) ≠ "John.doe" := by
  refine ⟨rfl, rfl, rfl, by decide⟩

/-- C4 (amended): for every email with no (truthy) existing user, `login`
creates a User with role `student` whose name is the Python title-casing of
the email's local-part — each alphabetic character at the start or after a
non-alphabetic character is uppercased, every other alphabetic character is
lowercased — and returns exactly that record. -/
theorem C4_login_autoprovision_amended :
    ∀ (users : List Doc) (email newId : String) (now : PyDateTime),
      pyTruthy (find_one users [("email", Value.vStr email)]) = false →
      (login_user users email newId now).1 =
        [("id", Value.vStr newId), ("name", Value.vStr (pyTitle (localPart email))),
         ("email", Value.vStr email), ("role", Value.vStr "student")] ∧
      (login_user users email newId now).2 =
        users ++ [("_id", Value.vOid newId) ::
          userDump (pyTitle (localPart email)) email "student" ++
          [("created_at", Value.vDt now)]] := by
  intro users email newId now h
  constructor <;> simp [login_user, h, create_document]

/-- Witness for the amended C4 on the never-seen email `"new@x.com"`. -/
theorem C4_login_autoprovision_amended_witness :
    (login_user [] "new@x.com" sampleOid sampleTime).1 =
      [("id", Value.vStr sampleOid), ("name", Value.vStr (pyTitle (localPart "new@x.com"))),
       ("email", Value.vStr "new@x.com"), ("role", Value.vStr "student")] ∧
    (login_user [] "new@x.com" sampleOid sampleTime).2 =
      [] ++ [("_id", Value.vOid sampleOid) ::
        userDump (pyTitle (localPart "new@x.com")) "new@x.com" "student" ++
        [("created_at", Value.vDt sampleTime)]] :=
  C4_login_autoprovision_amended [] "new@x.com" sampleOid sampleTime rfl

/-- C5: `register` with an already-used email returns the stored record's
fields unchanged and performs no write (first conjunct); hence two successive
`register` calls with the same email — the first on a store without that
email — return the same record both times, with the first call's name, and
the second call leaves the store untouched (second conjunct). -/
theorem C5_register_does_not_overwrite :
    (∀ (users : List Doc) (n e newId : String) (now : PyDateTime) (d : Doc),
       find_one users [("email", Value.vStr e)] = some d → d ≠ [] →
       register_user users n e newId now =
         ([("id", Value.vStr (pyStr ((dgetOpt d "_id").getD Value.vNone))),
           ("name", (dgetOpt d "name").getD Value.vNone),
           ("email", (dgetOpt d "email").getD Value.vNone),
           ("role", (dgetOpt d "role").getD (Value.vStr "student"))], users)) ∧
    (∀ (users : List Doc) (n1 n2 e id1 id2 : String) (t1 t2 : PyDateTime) (r1 : Doc)
       (s1 : List Doc),
       find_one users [("email", Value.vStr e)] = none →
       register_user users n1 e id1 t1 = (r1, s1) →
       register_user s1 n2 e id2 t2 = (r1, s1) ∧
       dgetOpt r1 "name" = some (Value.vStr n1)) := by
  constructor
  · intro users n e newId now d h hne
    exact register_user_found h hne
  · intro users n1 n2 e id1 id2 t1 t2 r1 s1 h h1
    rw [register_user_not_found h, Prod.mk.injEq] at h1
    obtain ⟨hr, hs⟩ := h1
    subst hr
    subst hs
    have hfind : find_one
        (users ++ [("_id", Value.vOid id1) :: userDump n1 e "student" ++
          [("created_at", Value.vDt t1)]])
        [("email", Value.vStr e)] =
        some (("_id", Value.vOid id1) :: userDump n1 e "student" ++
          [("created_at", Value.vDt t1)]) := by
      rw [find_one_append_right _ h, find_one_cons,
        if_pos (matchesFilter_single.mpr
          (show dgetOpt (("_id", Value.vOid id1) :: userDump n1 e "student" ++
              [("created_at", Value.vDt t1)]) "email" = some (Value.vStr e) from rfl))]
    constructor
    · rw [register_user_found hfind (by simp [userDump])]
      rfl
    · rfl

/-- Witness for C5: concrete runs of both parts — `register("Bob", ...)` on a
store already holding Alice returns Alice's record and writes nothing, and
`register("Alice", ...)` then `register("Bob", ...)` on a fresh store return
the same record with name `"Alice"`. -/
theorem C5_register_does_not_overwrite_witness :
    register_user [c5doc] "Bob" "a@x.com" sampleOid2 sampleTime2 =
      ([("id", Value.vStr (pyStr ((dgetOpt c5doc "_id").getD Value.vNone))),
        ("name", (dgetOpt c5doc "name").getD Value.vNone),
        ("email", (dgetOpt c5doc "email").getD Value.vNone),
        ("role", (dgetOpt c5doc "role").getD (Value.vStr "student"))], [c5doc]) ∧
    (register_user
        [("_id", Value.vOid sampleOid) :: userDump "Alice" "a@x.com" "student" ++
          [("created_at", Value.vDt sampleTime)]]
        "Bob" "a@x.com" sampleOid2 sampleTime2 =
      ([("id", Value.vStr sampleOid), ("name", Value.vStr "Alice"),
        ("email", Value.vStr "a@x.com"), ("role", Value.vStr "student")],
       [("_id", Value.vOid sampleOid) :: userDump "Alice" "a@x.com" "student" ++
          [("created_at", Value.vDt sampleTime)]]) ∧
     dgetOpt [("id", Value.vStr sampleOid), ("name", Value.vStr "Alice"),
        ("email", Value.vStr "a@x.com"), ("role", Value.vStr "student")] "name" =
       some (Value.vStr "Alice")) :=
  ⟨C5_register_does_not_overwrite.1 [c5doc] "Bob" "a@x.com" sampleOid2 sampleTime2 c5doc
      rfl (by decide),
   C5_register_does_not_overwrite.2 [] "Alice" "Bob" "a@x.com" sampleOid sampleOid2
      sampleTime sampleTime2
      [("id", Value.vStr sampleOid), ("name", Value.vStr "Alice"),
       ("email", Value.vStr "a@x.com"), ("role", Value.vStr "student")]
      [("_id", Value.vOid sampleOid) :: userDump "Alice" "a@x.com" "student" ++
        [("created_at", Value.vDt sampleTime)]]
      rfl rfl⟩

/-- Counterexample to C2 as stated: a Project partial update supplying
`status = "Bogus"` — a value outside the fixed enum set — does NOT fail: the
update succeeds and the out-of-set value is written to the store, because the
`ProjectUpdate` request model declares `status`/`paymentStatus` as plain
optional strings with no `Literal` validation. -/
theorem C2_enum_not_validated_counterexample :
    statuses.contains "Bogus" = false ∧
    (update_project [c2doc] sampleOid ⟨some "Bogus", none, none, none⟩ sampleTime2).2 =
      [c2docAfter] ∧
    (update_project [c2doc] sampleOid ⟨some "Bogus", none, none, none⟩ sampleTime2).1 =
      Except.ok (UpdResp.updatedDoc (to_str_id (some c2docAfter))) ∧
    dgetOpt c2docAfter "status" = some (Value.vStr "Bogus") :=
  ⟨rfl, rfl, rfl, rfl⟩

/-- C2 (amended): for every Project partial update whose payload supplies a
`status` or `paymentStatus` value (any payload shape: the other fields may be
supplied or absent), the update succeeds and each supplied field's value is
written to the store as-is, with no validation against the enum sets — any
string is accepted — while every absent field (`status`, `paymentStatus`,
`adminRemarks`, `deliverables` alike) is left untouched and not defaulted, and
the document id is preserved. -/
theorem C2_update_unvalidated_write_amended :
    ∀ (docs : List Doc) (pid oid : String) (p : ProjectUpdate) (d : Doc)
      (now : PyDateTime),
      objectId? pid = some oid →
      find_one docs [("_id", Value.vOid oid)] = some d →
      (p.status ≠ none ∨ p.paymentStatus ≠ none) →
      ∃ d', (update_project docs pid p now).2 =
          update_one docs [("_id", Value.vOid oid)]
            (p.dump ++ [("updated_at", Value.vDt now)]) ∧
        find_one (update_project docs pid p now).2 [("_id", Value.vOid oid)] =
          some d' ∧
        (update_project docs pid p now).1 =
          Except.ok (UpdResp.updatedDoc (to_str_id (some d'))) ∧
        (∀ s, p.status = some s → dgetOpt d' "status" = some (Value.vStr s)) ∧
        (p.status = none → dgetOpt d' "status" = dgetOpt d "status") ∧
        (∀ s, p.paymentStatus = some s →
          dgetOpt d' "paymentStatus" = some (Value.vStr s)) ∧
        (p.paymentStatus = none →
          dgetOpt d' "paymentStatus" = dgetOpt d "paymentStatus") ∧
        (∀ a, p.adminRemarks = some a →
          dgetOpt d' "adminRemarks" = some (Value.vStr a)) ∧
        (p.adminRemarks = none →
          dgetOpt d' "adminRemarks" = dgetOpt d "adminRemarks") ∧
        (∀ l, p.deliverables = some l →
          dgetOpt d' "deliverables" = some (Value.vStrList l)) ∧
        (p.deliverables = none →
          dgetOpt d' "deliverables" = dgetOpt d "deliverables") ∧
        dgetOpt d' "_id" = some (Value.vOid oid) := by
  intro docs pid oid p d now hobj hfind hor
  obtain ⟨st, ps, ar, dl⟩ := p
  have hid : dgetOpt d "_id" = some (Value.vOid oid) :=
    matchesFilter_single.mp (find_one_matches hfind)
  have hmc : matched_count docs [("_id", Value.vOid oid)] = 1 := matched_count_one hfind
  have hdumpne : (ProjectUpdate.dump ⟨st, ps, ar, dl⟩).isEmpty = false := by
    rcases hor with h | h <;> cases st <;> cases ps <;> first | rfl | exact absurd rfl h
  have hlst : lookupLast (ProjectUpdate.dump ⟨st, ps, ar, dl⟩ ++
      [("updated_at", Value.vDt now)]) "status" = st.map Value.vStr := by
    cases st <;> cases ps <;> cases ar <;> cases dl <;> rfl
  have hlps : lookupLast (ProjectUpdate.dump ⟨st, ps, ar, dl⟩ ++
      [("updated_at", Value.vDt now)]) "paymentStatus" = ps.map Value.vStr := by
    cases st <;> cases ps <;> cases ar <;> cases dl <;> rfl
  have hlar : lookupLast (ProjectUpdate.dump ⟨st, ps, ar, dl⟩ ++
      [("updated_at", Value.vDt now)]) "adminRemarks" = ar.map Value.vStr := by
    cases st <;> cases ps <;> cases ar <;> cases dl <;> rfl
  have hldl : lookupLast (ProjectUpdate.dump ⟨st, ps, ar, dl⟩ ++
      [("updated_at", Value.vDt now)]) "deliverables" = dl.map Value.vStrList := by
    cases st <;> cases ps <;> cases ar <;> cases dl <;> rfl
  have hlid : lookupLast (ProjectUpdate.dump ⟨st, ps, ar, dl⟩ ++
      [("updated_at", Value.vDt now)]) "_id" = none := by
    cases st <;> cases ps <;> cases ar <;> cases dl <;> rfl
  have hup : update_project docs pid ⟨st, ps, ar, dl⟩ now =
      (Except.ok (UpdResp.updatedDoc (to_str_id (find_one
          (update_one docs [("_id", Value.vOid oid)]
            (ProjectUpdate.dump ⟨st, ps, ar, dl⟩ ++ [("updated_at", Value.vDt now)]))
          [("_id", Value.vOid oid)]))),
       update_one docs [("_id", Value.vOid oid)]
         (ProjectUpdate.dump ⟨st, ps, ar, dl⟩ ++ [("updated_at", Value.vDt now)])) := by
    simp [update_project, hdumpne, hobj, hmc]
  have hpres : matchesFilter
      (setFields d (ProjectUpdate.dump ⟨st, ps, ar, dl⟩ ++
        [("updated_at", Value.vDt now)]))
      [("_id", Value.vOid oid)] = true :=
    matchesFilter_single.mpr (by rw [dgetOpt_setFields, hlid]; exact hid)
  have hfind' : find_one (update_one docs [("_id", Value.vOid oid)]
      (ProjectUpdate.dump ⟨st, ps, ar, dl⟩ ++ [("updated_at", Value.vDt now)]))
      [("_id", Value.vOid oid)] =
      some (setFields d (ProjectUpdate.dump ⟨st, ps, ar, dl⟩ ++
        [("updated_at", Value.vDt now)])) :=
    find_one_modifyFirst hfind hpres
  refine ⟨setFields d (ProjectUpdate.dump ⟨st, ps, ar, dl⟩ ++
      [("updated_at", Value.vDt now)]),
    ?_, ?_, ?_, ?_, ?_, ?_, ?_, ?_, ?_, ?_, ?_, ?_⟩
  · rw [hup]
  · rw [hup]
    exact hfind'
  · rw [hup]
    simp only [hfind']
  · intro s hs
    have hs' : st = some s := hs
    rw [dgetOpt_setFields, hlst, hs']
    rfl
  · intro hs
    have hs' : st = none := hs
    rw [dgetOpt_setFields, hlst, hs']
    rfl
  · intro s hs
    have hs' : ps = some s := hs
    rw [dgetOpt_setFields, hlps, hs']
    rfl
  · intro hs
    have hs' : ps = none := hs
    rw [dgetOpt_setFields, hlps, hs']
    rfl
  · intro a ha
    have ha' : ar = some a := ha
    rw [dgetOpt_setFields, hlar, ha']
    rfl
  · intro ha
    have ha' : ar = none := ha
    rw [dgetOpt_setFields, hlar, ha']
    rfl
  · intro l hl
    have hl' : dl = some l := hl
    rw [dgetOpt_setFields, hldl, hl']
    rfl
  · intro hl
    have hl' : dl = none := hl
    rw [dgetOpt_setFields, hldl, hl']
    rfl
  · rw [dgetOpt_setFields, hlid]
    exact hid

/-- Witness for the amended C2 at a concrete store, on a payload supplying
only `paymentStatus` (with a value outside the enum set). -/
theorem C2_update_unvalidated_write_amended_witness :
    ∃ d', (update_project [c2doc] sampleOid
        ⟨none, some "NotAPaymentStatus", none, none⟩ sampleTime2).2 =
      update_one [c2doc] [("_id", Value.vOid sampleOid)]
        (ProjectUpdate.dump ⟨none, some "NotAPaymentStatus", none, none⟩ ++
          [("updated_at", Value.vDt sampleTime2)]) ∧
    find_one (update_project [c2doc] sampleOid
        ⟨none, some "NotAPaymentStatus", none, none⟩ sampleTime2).2
      [("_id", Value.vOid sampleOid)] = some d' ∧
    (update_project [c2doc] sampleOid
        ⟨none, some "NotAPaymentStatus", none, none⟩ sampleTime2).1 =
      Except.ok (UpdResp.updatedDoc (to_str_id (some d'))) ∧
    (∀ s, (none : Option String) = some s →
      dgetOpt d' "status" = some (Value.vStr s)) ∧
    ((none : Option String) = none →
      dgetOpt d' "status" = dgetOpt c2doc "status") ∧
    (∀ s, (some "NotAPaymentStatus" : Option String) = some s →
      dgetOpt d' "paymentStatus" = some (Value.vStr s)) ∧
    ((some "NotAPaymentStatus" : Option String) = none →
      dgetOpt d' "paymentStatus" = dgetOpt c2doc "paymentStatus") ∧
    (∀ a, (none : Option String) = some a →
      dgetOpt d' "adminRemarks" = some (Value.vStr a)) ∧
    ((none : Option String) = none →
      dgetOpt d' "adminRemarks" = dgetOpt c2doc "adminRemarks") ∧
    (∀ l, (none : Option (List String)) = some l →
      dgetOpt d' "deliverables" = some (Value.vStrList l)) ∧
    ((none : Option (List String)) = none →
      dgetOpt d' "deliverables" = dgetOpt c2doc "deliverables") ∧
    dgetOpt d' "_id" = some (Value.vOid sampleOid) :=
  C2_update_unvalidated_write_amended [c2doc] sampleOid sampleOid
    ⟨none, some "NotAPaymentStatus", none, none⟩ c2doc sampleTime2 rfl rfl
    (Or.inr (fun h => Option.noConfusion h))

/-- C7: the initial-deliverable attach (`$addToSet`) adds the supplied file
reference to the matched document's existing `deliverables` array without
removing prior entries, appends a new reference at the end (stable order), and
is idempotent under exact-duplicate resubmission; the document id is
untouched. -/
theorem C7_initial_attach_addToSet :
    ∀ (docs : List Doc) (oid : String) (l : List String) (d : Doc) (url : String),
      find_one docs [("_id", Value.vOid oid)] = some d →
      dgetOpt d "deliverables" = some (Value.vStrList l) →
      (∃ d', find_one (update_one_addToSet docs [("_id", Value.vOid oid)]
            "deliverables" url) [("_id", Value.vOid oid)] = some d' ∧
         dgetOpt d' "deliverables" = some (Value.vStrList (addToSetList l url)) ∧
         dgetOpt d' "_id" = dgetOpt d "_id") ∧
      (l.contains url = true → addToSetList l url = l) ∧
      (l.contains url = false → addToSetList l url = l ++ [url]) ∧
      (∀ x ∈ l, x ∈ addToSetList l url) ∧ url ∈ addToSetList l url := by
  intro docs oid l d url hfind hdel
  have hid : dgetOpt d "_id" = some (Value.vOid oid) :=
    matchesFilter_single.mp (find_one_matches hfind)
  have hd' : docAddToSet d "deliverables" url =
      dset d "deliverables" (Value.vStrList (addToSetList l url)) := by
    unfold docAddToSet
    rw [hdel]
  have hidne : ("_id" : String) ≠ "deliverables" := by decide
  have hpres : matchesFilter (docAddToSet d "deliverables" url)
      [("_id", Value.vOid oid)] = true := by
    apply matchesFilter_single.mpr
    rw [dgetOpt_docAddToSet_ne d url hidne]
    exact hid
  have hfind' := @find_one_modifyFirst [("_id", Value.vOid oid)]
    (fun x => docAddToSet x "deliverables" url) docs d hfind hpres
  refine ⟨⟨docAddToSet d "deliverables" url, hfind', ?_, ?_⟩, ?_, ?_, ?_, ?_⟩
  · rw [hd', dgetOpt_dset_self]
  · rw [hd', dgetOpt_dset_ne _ _ hidne, hid]
  · intro h
    unfold addToSetList
    rw [if_pos h]
  · intro h
    unfold addToSetList
    rw [if_neg (by rw [h]; decide)]
  · intro x hx
    unfold addToSetList
    by_cases h : l.contains url = true
    · rw [if_pos h]; exact hx
    · rw [if_neg h]; exact List.mem_append_left _ hx
  · unfold addToSetList
    by_cases h : l.contains url = true
    · rw [if_pos h]
      exact List.mem_of_elem_eq_true h
    · rw [if_neg h]
      exact List.mem_append_right _ (List.mem_singleton.mpr rfl)

/-- Witness for C7: attaching `"a.pdf"` to a document whose deliverables are
already `["a.pdf"]` (idempotent case). -/
theorem C7_initial_attach_addToSet_witness :
    (∃ d', find_one (update_one_addToSet [c7doc] [("_id", Value.vOid sampleOid)]
          "deliverables" "a.pdf") [("_id", Value.vOid sampleOid)] = some d' ∧
       dgetOpt d' "deliverables" =
         some (Value.vStrList (addToSetList ["a.pdf"] "a.pdf")) ∧
       dgetOpt d' "_id" = dgetOpt c7doc "_id") ∧
    (["a.pdf"].contains "a.pdf" = true → addToSetList ["a.pdf"] "a.pdf" = ["a.pdf"]) ∧
    (["a.pdf"].contains "a.pdf" = false →
      addToSetList ["a.pdf"] "a.pdf" = ["a.pdf"] ++ ["a.pdf"]) ∧
    (∀ x ∈ ["a.pdf"], x ∈ addToSetList ["a.pdf"] "a.pdf") ∧
    "a.pdf" ∈ addToSetList ["a.pdf"] "a.pdf" :=
  C7_initial_attach_addToSet [c7doc] sampleOid ["a.pdf"] c7doc "a.pdf" rfl rfl

/-- C8: every Project creation that passes validation stores a document whose
`status` is `"Requested"` and whose `paymentStatus` is `"pending"`: the
validated model always carries the schema defaults (the creation payload
cannot override them), and the inserted document's fields come from the
model's dump (the optional initial-file attach only touches `deliverables`). -/
theorem C8_creation_defaults :
    ∀ (projects : List Doc) (payload : ProjectCreate) (newId : String) (now : PyDateTime)
      (proj : Project),
      mkProject payload.studentId payload.title payload.technology payload.description =
        Except.ok proj →
      proj.status = "Requested" ∧ proj.paymentStatus = "pending" ∧
      ∃ pre d, (create_project projects payload newId now).2 = pre ++ [d] ∧
        dgetOpt d "status" = some (Value.vStr "Requested") ∧
        dgetOpt d "paymentStatus" = some (Value.vStr "pending") := by
  intro projects payload newId now proj h
  have hproj : proj = Project.mk payload.studentId payload.title payload.description
      payload.technology "Requested" "pending" none none [] := by
    unfold mkProject at h
    by_cases hc : technologies.contains payload.technology = true
    · rw [if_pos hc] at h
      exact (Except.ok.inj h).symm
    · rw [if_neg hc] at h
      exact absurd h (by simp)
  subst hproj
  refine ⟨rfl, rfl, ?_⟩
  set nd : Doc := ("_id", Value.vOid newId) ::
    Project.dump (Project.mk payload.studentId payload.title payload.description
      payload.technology "Requested" "pending" none none []) ++
    [("created_at", Value.vDt now)] with hnd
  cases hf : payload.fileUrl with
  | none =>
    refine ⟨projects, nd, ?_, rfl, rfl⟩
    simp only [create_project, h, hf]
    rfl
  | some url =>
    by_cases hu : url = ""
    · refine ⟨projects, nd, ?_, rfl, rfl⟩
      simp only [create_project, h, hf, if_pos hu]
      rfl
    · rcases modifyFirst_append_last [("_id", Value.vOid newId)]
        (fun x => docAddToSet x "deliverables" url) nd projects with hcase | hcase
      · refine ⟨modifyFirst projects [("_id", Value.vOid newId)]
          (fun x => docAddToSet x "deliverables" url), nd, ?_, rfl, rfl⟩
        simp only [create_project, h, hf, if_neg hu, update_one_addToSet, create_document]
        exact hcase
      · refine ⟨projects, docAddToSet nd "deliverables" url, ?_, ?_, ?_⟩
        · simp only [create_project, h, hf, if_neg hu, update_one_addToSet, create_document]
          exact hcase
        · rw [dgetOpt_docAddToSet_ne nd url
            (show ("status" : String) ≠ "deliverables" by decide)]
          rfl
        · rw [dgetOpt_docAddToSet_ne nd url
            (show ("paymentStatus" : String) ≠ "deliverables" by decide)]
          rfl

/-- Witness for C8 at a concrete valid creation (with an initial file
attached). -/
theorem C8_creation_defaults_witness :
    Project.status (Project.mk "s1" "T" none "Java" "Requested" "pending"
        none none []) = "Requested" ∧
    Project.paymentStatus (Project.mk "s1" "T" none "Java" "Requested" "pending"
        none none []) = "pending" ∧
    ∃ pre d, (create_project [] ⟨"s1", "T", "Java", none, some "a.pdf"⟩ sampleOid
        sampleTime).2 = pre ++ [d] ∧
      dgetOpt d "status" = some (Value.vStr "Requested") ∧
      dgetOpt d "paymentStatus" = some (Value.vStr "pending") :=
  C8_creation_defaults [] ⟨"s1", "T", "Java", none, some "a.pdf"⟩ sampleOid sampleTime
    (Project.mk "s1" "T" none "Java" "Requested" "pending" none none []) rfl

/-- C9: the response projector `to_str_id` maps `None` to `None`, and on a
stored document (with an ObjectId `_id`, no pre-existing `id` field, and
UTC-aware timestamps, as the handlers store them) it replaces `_id` by the
public string field `id` and converts every timestamp-valued field to its
`isoformat` text, which matches the canonical ISO-8601 UTC shape
`YYYY-MM-DDTHH:MM:SS[.ffffff]+00:00`. -/
theorem C9_response_projector :
    to_str_id none = none ∧
    ∀ (d : Doc) (i : String),
      dgetOpt d "_id" = some (Value.vOid i) →
      dgetOpt d "id" = none →
      allDtsUTC d = true →
      ∃ d', to_str_id (some d) = some d' ∧
        dgetOpt d' "id" = some (Value.vStr i) ∧
        dgetOpt d' "_id" = none ∧
        ∀ k t, dgetOpt d k = some (Value.vDt t) →
          dgetOpt d' k = some (Value.vStr t.isoformat) ∧
          isISO8601UTC t.isoformat = true := by
  refine ⟨rfl, ?_⟩
  intro d i hid hnoid hutc
  have hne : d.isEmpty = false := by
    cases d with
    | nil => exact absurd hid (by simp [dgetOpt])
    | cons p rest => rfl
  have hd' : to_str_id (some d) =
      some (convertDts (ddel (dset d "id" (Value.vStr i)) "_id")) := by
    show some (to_str_id_doc d) = _
    unfold to_str_id_doc
    simp only [hne, Bool.false_eq_true, if_false, hid]
  refine ⟨_, hd', ?_, ?_, ?_⟩
  · rw [dgetOpt_convertDts, dgetOpt_ddel_ne _ (show ("id" : String) ≠ "_id" by decide),
      dgetOpt_dset_self]
    rfl
  · rw [dgetOpt_convertDts, dgetOpt_ddel_self]
    rfl
  · intro k t hkt
    have hk1 : k ≠ "_id" := by
      intro hh
      rw [hh, hid] at hkt
      exact Value.noConfusion (Option.some.inj hkt)
    have hk2 : k ≠ "id" := by
      intro hh
      rw [hh, hnoid] at hkt
      exact Option.noConfusion hkt
    constructor
    · rw [dgetOpt_convertDts, dgetOpt_ddel_ne _ hk1, dgetOpt_dset_ne _ _ hk2, hkt]
      rfl
    · rcases dgetOpt_eq_some_mem hkt with ⟨p, hp, hv⟩
      unfold allDtsUTC at hutc
      have h2 := List.all_eq_true.mp hutc p hp
      rw [hv] at h2
      exact isISO8601UTC_isoformat t (of_decide_eq_true h2)

/-- Witness for C9 on a concrete stored document with an ObjectId and a UTC
creation timestamp. -/
theorem C9_response_projector_witness :
    ∃ d', to_str_id (some c9doc) = some d' ∧
      dgetOpt d' "id" = some (Value.vStr sampleOid) ∧
      dgetOpt d' "_id" = none ∧
      ∀ k t, dgetOpt c9doc k = some (Value.vDt t) →
        dgetOpt d' k = some (Value.vStr t.isoformat) ∧
        isISO8601UTC t.isoformat = true :=
  C9_response_projector.2 c9doc sampleOid rfl rfl rfl
